import Mathlib

/-!
Shallow embedding of `qr_gui.py` (QR_Code_Generator): the `QRCodeGenerator`
class with its methods `validate_url`, `format_url`, `generate_qr_code` and
`display_qr_info`. Python strings are Lean `String`s, dynamic (possibly
non-string) arguments are a `PyVal` sum, the filesystem and the calls into
the external qrcode library are an explicit `World` state plus an `Oracle`
that says which external operations raise. The `try`/`except` block of
`generate_qr_code` is a `genBody` returning `Except` plus a handler.
-/

/-- Python `s.startswith(p)` for strings (character-list version). -/
def pyStartsWith (s p : String) : Bool :=
  p.data.isPrefixOf s.data

/-- Python `s.endswith(p)` for strings (character-list version). -/
def pyEndsWith (s p : String) : Bool :=
  p.data.isSuffixOf s.data

/-- Python `s.lower()` (ASCII case folding, as exercised by this program). -/
def pyLower (s : String) : String :=
  ⟨s.data.map Char.toLower⟩

/-- A Python value as it may be handed to `validate_url`: the program only
needs `None`, booleans, integers and strings to state its claims. -/
inductive PyVal where
  | pyNone
  | pyBool (b : Bool)
  | pyInt (n : Int)
  | pyStr (s : String)
deriving DecidableEq, Repr

/-- Python truthiness (`not url` is the negation of this). -/
def pyTruthy : PyVal → Bool
  | .pyNone => false
  | .pyBool b => b
  | .pyInt n => n != 0
  | .pyStr s => s != ""

/-- Python `isinstance(v, str)`. -/
def pyIsStr : PyVal → Bool
  | .pyStr _ => true
  | _ => false

/-- The string payload of a `PyVal` (only read after the `isinstance` guard). -/
def pyStrVal : PyVal → String
  | .pyStr s => s
  | _ => ""

/-- `QRCodeGenerator.validate_url` on an arbitrary Python value, lines 24-41:
guard `if not url or not isinstance(url, str): return False`, then the
scheme check and the basic domain-format check. -/
def validate_url_dyn (v : PyVal) : Bool :=
  if !pyTruthy v || !pyIsStr v then false
  else
    let url := pyStrVal v
    if pyStartsWith url "http://" || pyStartsWith url "https://" then true
    else if url.data.contains '.' && !pyStartsWith url "." && !pyEndsWith url "." then true
    else false

/-- `QRCodeGenerator.validate_url` restricted to string arguments, the shape
in which the rest of the program calls it. -/
def validate_url (url : String) : Bool :=
  validate_url_dyn (PyVal.pyStr url)

/-- `QRCodeGenerator.format_url`, lines 43-49: prepend `https://` when the
string carries neither scheme. -/
def format_url (url : String) : String :=
  if !(pyStartsWith url "http://" || pyStartsWith url "https://") then
    "https://" ++ url
  else url

/-- The dot test exactly as claim C1 words it: `s` contains a `'.'` character
that is neither the first nor the last character of `s`. -/
def hasInteriorDot (s : String) : Bool :=
  (List.range s.data.length).any fun i =>
    s.data.getD i ' ' == '.' && i != 0 && i != s.data.length - 1

/-- `isPlausibleUrl` as claim C1 states it, word for word: empty fails, the
two schemes pass, otherwise an interior dot is required. -/
def spec_isPlausibleUrl_claim (s : String) : Bool :=
  if s = "" then false
  else if pyStartsWith s "http://" || pyStartsWith s "https://" then true
  else hasInteriorDot s

/-- `isPlausibleUrl` as amended: in the otherwise branch the string must
contain a `'.'`, its first character must not be `'.'` and its last
character must not be `'.'`. -/
def spec_isPlausibleUrl_amended (s : String) : Bool :=
  if s = "" then false
  else if pyStartsWith s "http://" || pyStartsWith s "https://" then true
  else s.data.contains '.' && !(s.data.head? == some '.') && !(s.data.getLast? == some '.')

theorem list_isPrefixOf_append (l m : List Char) : l.isPrefixOf (l ++ m) = true := by
  induction l with
  | nil => simp [List.isPrefixOf]
  | cons a t ih => simp [List.isPrefixOf, ih]

theorem isPrefixOf_singleton_eq_head (c : Char) (l : List Char) :
    [c].isPrefixOf l = (l.head? == some c) := by
  cases l with
  | nil => rfl
  | cons a t => simp [List.isPrefixOf, beq_iff_eq, eq_comm]

theorem isSuffixOf_singleton_eq_getLast (c : Char) (l : List Char) :
    [c].isSuffixOf l = (l.getLast? == some c) := by
  simp [List.isSuffixOf, isPrefixOf_singleton_eq_head, List.head?_reverse]

/-- Error-correction levels of the qrcode library; the program selects
`ERROR_CORRECT_M`. -/
inductive ErrorCorrectLevel where
  | L
  | M
  | Q
  | H
deriving DecidableEq, Repr

/-- `QRCodeGenerator.__init__`, lines 17-22: the instance fields. -/
structure QRCodeGenerator where
  version : Nat
  box_size : Nat
  border : Nat
  error_correction : ErrorCorrectLevel
deriving DecidableEq, Repr

/-- The generator with the default settings of `__init__`. -/
def QRCodeGenerator.init : QRCodeGenerator :=
  { version := 1, box_size := 10, border := 4,
    error_correction := ErrorCorrectLevel.M }

/-- The image `qr.make_image(fill_color="black", back_color="white")`
produces for a payload, with the configuration the encoder was built from
(the external encoding itself is opaque, so the image is determined by
payload and parameters). -/
structure QRImage where
  payload : String
  version : Nat
  box_size : Nat
  border : Nat
  error_correction : ErrorCorrectLevel
  fill_color : String
  back_color : String
deriving DecidableEq, Repr

/-- Lines 65-80: build the QRCode instance from the generator's fields, add
the formatted URL and render black on white. -/
def mkImage (g : QRCodeGenerator) (data : String) : QRImage :=
  { payload := data, version := g.version, box_size := g.box_size,
    border := g.border, error_correction := g.error_correction,
    fill_color := "black", back_color := "white" }

/-- An externally visible effect attempted by `generate_qr_code`. -/
inductive Event where
  | encode (payload : String)
  | makedirs (dir : String)
  | save (path : String)
deriving DecidableEq, Repr

/-- The filesystem and effect trace threaded through `generate_qr_code`. -/
structure World where
  dirs : List String
  files : List (String × QRImage)
  events : List Event
deriving DecidableEq, Repr

/-- The world before anything was generated. -/
def emptyWorld : World :=
  { dirs := [], files := [], events := [] }

/-- Which external operations raise an exception, and with what message:
`encodeErr` for the qrcode construction/encoding/rendering calls,
`makedirsErr` for `os.makedirs`, `saveErr` for `qr_image.save`. -/
structure Oracle where
  encodeErr : Option String
  makedirsErr : Option String
  saveErr : Option String
deriving DecidableEq, Repr

/-- The oracle on which every external operation succeeds. -/
def okOracle : Oracle :=
  { encodeErr := none, makedirsErr := none, saveErr := none }

/-- An oracle whose `qr_image.save` call raises `disk full`. -/
def saveFailOracle : Oracle :=
  { encodeErr := none, makedirsErr := none, saveErr := some "disk full" }

/-- Overwrite-on-write file store: the new entry replaces any entry at the
same path, as a PNG save does. -/
def fsWrite (files : List (String × QRImage)) (p : String) (img : QRImage) :
    List (String × QRImage) :=
  (p, img) :: files.filter fun e => !(e.1 == p)

/-- The content stored at a path, if any. -/
def fsLookup (files : List (String × QRImage)) (p : String) : Option QRImage :=
  (files.find? fun e => e.1 == p).map fun e => e.2

/-- Line 84: `"".join(c for c in url if c.isalnum() or c in ('-', '_'))[:20]`. -/
def pySafeUrl (url : String) : String :=
  ⟨(url.data.filter fun c => c.isAlphanum || c == '-' || c == '_').take 20⟩

/-- Lines 83-89: pick the filename. Python's `if not filename:` treats both a
missing and an empty filename as absent, and the `.png` extension check is
case-insensitive. -/
def deriveFilename (url fname : String) : String :=
  let fname := if fname = "" then pySafeUrl url ++ ".png" else fname
  if pyEndsWith (pyLower fname) ".png" then fname else fname ++ ".png"

/-- `os.path.join` as this program can reach it (POSIX: an absolute second
component discards the first). -/
def pyPathJoin (a b : String) : String :=
  if pyStartsWith b "/" then b else a ++ "/" ++ b

/-- The body of the `try` block of `generate_qr_code`, lines 57-99: an
`Except` result (raised exception message on the left) together with the
world as left behind and the generator object (`self`) as left behind. -/
def genBody (o : Oracle) (g : QRCodeGenerator) (w : World) (url : String)
    (filename : Option String) :
    Except String (Bool × String × Option QRImage) × World × QRCodeGenerator :=
  if !validate_url url then
    (Except.ok (false, "Please enter a valid URL.", none), w, g)
  else
    let formatted_url := format_url url
    let w := { w with events := w.events ++ [Event.encode formatted_url] }
    match o.encodeErr with
    | some e => (Except.error e, w, g)
    | none =>
      let qr_image := mkImage g formatted_url
      let filename := deriveFilename url (filename.getD "")
      let output_dir := "qr_codes_output"
      let dirStep : Except String Unit × World :=
        if w.dirs.contains output_dir then (Except.ok (), w)
        else
          let w := { w with events := w.events ++ [Event.makedirs output_dir] }
          match o.makedirsErr with
          | some e => (Except.error e, w)
          | none => (Except.ok (), { w with dirs := output_dir :: w.dirs })
      match dirStep with
      | (Except.error e, w) => (Except.error e, w, g)
      | (Except.ok _, w) =>
        let filepath := pyPathJoin output_dir filename
        let w := { w with events := w.events ++ [Event.save filepath] }
        match o.saveErr with
        | some e => (Except.error e, w, g)
        | none =>
          let w := { w with files := fsWrite w.files filepath qr_image }
          (Except.ok
            (true, "QR code generated successfully! Saved as: " ++ filepath,
             some qr_image), w, g)

/-- `QRCodeGenerator.generate_qr_code`, lines 51-102: the `try` body with
its `except Exception` handler, which converts any raised exception into
the tagged failure triple. -/
def generate_qr_code (o : Oracle) (g : QRCodeGenerator) (w : World)
    (url : String) (filename : Option String) :
    (Bool × String × Option QRImage) × World × QRCodeGenerator :=
  match genBody o g w url filename with
  | (Except.ok r, w, g) => (r, w, g)
  | (Except.error e, w, g) =>
      ((false, "Error generating QR code: " ++ e, none), w, g)

/-- `QRCodeGenerator.display_qr_info`, lines 104-112: the printed lines,
with `self` returned unchanged. -/
def display_qr_info (g : QRCodeGenerator) (url : String) (success : Bool)
    (message : String) : List String × QRCodeGenerator :=
  (["", String.mk (List.replicate 60 '='),
    "Input URL: " ++ url,
    "Status: " ++ (if success then "SUCCESS" else "FAILED"),
    "Message: " ++ message,
    String.mk (List.replicate 60 '=')], g)

/-- The output path a URL-derived generation writes to. -/
def expectedPath (u : String) : String :=
  pyPathJoin "qr_codes_output" (deriveFilename u "")

/-- The image a successful generation of `u` with the default generator
stores. -/
def expectedImage (u : String) : QRImage :=
  mkImage QRCodeGenerator.init (format_url u)

/-- The world a successful URL-derived generation of `u` leaves behind. -/
def afterWorld (w : World) (u : String) : World :=
  let p := expectedPath u
  if w.dirs.contains "qr_codes_output" = true then
    { dirs := w.dirs,
      files := fsWrite w.files p (expectedImage u),
      events := w.events ++ [Event.encode (format_url u)] ++ [Event.save p] }
  else
    { dirs := "qr_codes_output" :: w.dirs,
      files := fsWrite w.files p (expectedImage u),
      events := w.events ++ [Event.encode (format_url u)]
        ++ [Event.makedirs "qr_codes_output"] ++ [Event.save p] }

theorem string_data_append (s t : String) : (s ++ t).data = s.data ++ t.data := rfl

theorem pyLower_append (s t : String) :
    pyLower (s ++ t) = pyLower s ++ pyLower t := by
  simp [pyLower, string_data_append]
  rfl

theorem list_isSuffixOf_append (l m : List Char) : l.isSuffixOf (m ++ l) = true := by
  simp [List.isSuffixOf, List.reverse_append, list_isPrefixOf_append]

theorem ends_png_of_append (x : String) :
    pyEndsWith (pyLower (x ++ ".png")) ".png" = true := by
  rw [pyLower_append]
  show (".png".data).isSuffixOf ((pyLower x).data ++ (pyLower ".png").data) = true
  exact list_isSuffixOf_append _ _

theorem deriveFilename_none (u : String) :
    deriveFilename u "" = pySafeUrl u ++ ".png" := by
  simp [deriveFilename, ends_png_of_append]

theorem generate_qr_code_ok (u : String) (w : World) (h : validate_url u = true) :
    generate_qr_code okOracle QRCodeGenerator.init w u none =
      ((true, "QR code generated successfully! Saved as: " ++ expectedPath u,
        some (expectedImage u)), afterWorld w u, QRCodeGenerator.init) := by
  unfold generate_qr_code genBody afterWorld
  rw [h]
  simp only [Bool.not_true, Bool.false_eq_true, if_false, okOracle, Option.getD]
  by_cases hd : "qr_codes_output" ∈ w.dirs
  · simp [hd, expectedPath, expectedImage, mkImage]
  · simp [hd, expectedPath, expectedImage, mkImage]

theorem beq_as_decide {α : Type} [BEq α] [LawfulBEq α] [DecidableEq α]
    (a b : α) : (a == b) = decide (a = b) := by
  by_cases h : a = b <;> simp [h]

theorem pyStartsWith_dot (s : String) :
    pyStartsWith s "." = (s.data.head? == some '.') := by
  have hdot : ".".data = ['.'] := rfl
  rw [pyStartsWith, hdot, isPrefixOf_singleton_eq_head]

theorem pyEndsWith_dot (s : String) :
    pyEndsWith s "." = (s.data.getLast? == some '.') := by
  have hdot : ".".data = ['.'] := rfl
  rw [pyEndsWith, hdot, isSuffixOf_singleton_eq_getLast]

theorem afterWorld_files (w : World) (u : String) :
    (afterWorld w u).files = fsWrite w.files (expectedPath u) (expectedImage u) := by
  unfold afterWorld
  split <;> rfl

theorem fsLookup_fsWrite_self (fs : List (String × QRImage)) (p : String)
    (img : QRImage) : fsLookup (fsWrite fs p img) p = some img := by
  simp [fsLookup, fsWrite, List.find?]

theorem filter_after_filter_not (fs : List (String × QRImage)) (p : String) :
    ((fs.filter fun e => !(e.1 == p)).filter fun e => e.1 == p) = [] := by
  induction fs with
  | nil => rfl
  | cons a t ih =>
      cases h : (a.1 == p) <;> simp [List.filter_cons, h, ih]

theorem filter_fsWrite_length (fs : List (String × QRImage)) (p : String)
    (img : QRImage) :
    ((fsWrite fs p img).filter fun e => e.1 == p).length = 1 := by
  simp [fsWrite, List.filter, filter_after_filter_not fs p]

theorem genBody_self (o : Oracle) (g : QRCodeGenerator) (w : World)
    (url : String) (f : Option String) : (genBody o g w url f).2.2 = g := by
  rcases o with ⟨oe, om, os⟩
  by_cases hv : validate_url url = true
  · by_cases hd : "qr_codes_output" ∈ w.dirs <;>
      cases oe <;> cases om <;> cases os <;> simp [genBody, hv, hd]
  · simp [genBody, hv]

/-- Claim C1, counterexample: the string `".a.b"` contains a `'.'` (at index
2) that is neither its first nor its last character, so the claim's
otherwise-branch predicts acceptance, yet `validate_url` rejects it because
the string starts with `'.'`. -/
theorem validate_url_interior_dot_counterexample :
    validate_url ".a.b" = false ∧
    spec_isPlausibleUrl_claim ".a.b" = true ∧
    pyStartsWith ".a.b" "http://" = false ∧
    pyStartsWith ".a.b" "https://" = false ∧ ".a.b" ≠ "" := by
  refine ⟨by decide, by decide, by decide, by decide, by decide⟩

/-- Claim C1 (amended): `validate_url` returns false on the empty string,
true on strings carrying either scheme, and otherwise returns true exactly
when the string contains a `'.'`, its first character is not `'.'` and its
last character is not `'.'` (not: when some occurrence of `'.'` is
interior); everything else, `"ftp://x"` included, is rejected. -/
theorem validate_url_matches_amended_spec (s : String) :
    validate_url s = spec_isPlausibleUrl_amended s := by
  unfold validate_url validate_url_dyn spec_isPlausibleUrl_amended
  simp only [pyTruthy, pyIsStr, pyStrVal, pyStartsWith_dot, pyEndsWith_dot]
  by_cases hs : s = ""
  · simp [hs]
  · simp [hs, beq_as_decide]

/-- Claim C2: any exception raised inside the `try` body of
`generate_qr_code` (encoding, rendering, directory creation or file
writing) is caught and turned into the triple
`(false, "Error generating QR code: <details>", none)`; the partially
updated world is kept, and no raw exception reaches the caller. -/
theorem generate_qr_code_catches_exceptions (o : Oracle) (g : QRCodeGenerator)
    (w : World) (url : String) (filename : Option String) (e : String)
    (w' : World) (g' : QRCodeGenerator)
    (h : genBody o g w url filename = (Except.error e, w', g')) :
    generate_qr_code o g w url filename =
      ((false, "Error generating QR code: " ++ e, none), w', g') := by
  simp [generate_qr_code, h]

/-- The world left behind when the save of `a.b`'s QR code raises. -/
def wErrSave : World :=
  { dirs := ["qr_codes_output"], files := [],
    events := [Event.encode "https://a.b", Event.makedirs "qr_codes_output",
               Event.save "qr_codes_output/ab.png"] }

theorem generate_qr_code_catches_exceptions_witness :
    generate_qr_code saveFailOracle QRCodeGenerator.init emptyWorld "a.b" none =
      ((false, "Error generating QR code: " ++ "disk full", none), wErrSave,
       QRCodeGenerator.init) :=
  generate_qr_code_catches_exceptions saveFailOracle QRCodeGenerator.init
    emptyWorld "a.b" none "disk full" wErrSave QRCodeGenerator.init rfl

/-- Claim C3: a valid URL generated with no explicit filename is saved
under the name obtained from the original, unnormalized URL by keeping
letters, digits, `'-'` and `'_'`, truncating to 20 characters and appending
`".png"`; the call succeeds, reports that path, and the file is stored
there. -/
theorem generate_qr_code_derived_filename (u : String) (w : World)
    (h : validate_url u = true) :
    (generate_qr_code okOracle QRCodeGenerator.init w u none).1 =
      (true, "QR code generated successfully! Saved as: "
        ++ pyPathJoin "qr_codes_output" (pySafeUrl u ++ ".png"),
       some (expectedImage u)) ∧
    fsLookup (generate_qr_code okOracle QRCodeGenerator.init w u none).2.1.files
      (pyPathJoin "qr_codes_output" (pySafeUrl u ++ ".png"))
      = some (expectedImage u) := by
  have hg := generate_qr_code_ok u w h
  have hp : expectedPath u = pyPathJoin "qr_codes_output" (pySafeUrl u ++ ".png") := by
    rw [expectedPath, deriveFilename_none]
  rw [hg]
  refine ⟨by rw [hp], ?_⟩
  rw [afterWorld_files, hp, fsLookup_fsWrite_self]

theorem generate_qr_code_derived_filename_witness :
    pyPathJoin "qr_codes_output" (pySafeUrl "example.com" ++ ".png")
      = "qr_codes_output/examplecom.png" ∧
    ((generate_qr_code okOracle QRCodeGenerator.init emptyWorld "example.com" none).1 =
      (true, "QR code generated successfully! Saved as: "
        ++ pyPathJoin "qr_codes_output" (pySafeUrl "example.com" ++ ".png"),
       some (expectedImage "example.com")) ∧
    fsLookup (generate_qr_code okOracle QRCodeGenerator.init emptyWorld
        "example.com" none).2.1.files
      (pyPathJoin "qr_codes_output" (pySafeUrl "example.com" ++ ".png"))
      = some (expectedImage "example.com")) :=
  ⟨by decide, generate_qr_code_derived_filename "example.com" emptyWorld (by decide)⟩

/-- Claim C4: when `validate_url` rejects the input, `generate_qr_code`
returns exactly `(false, "Please enter a valid URL.", none)` and the world
is unchanged: no encode, makedirs or save event happens and `self` is
untouched. -/
theorem generate_qr_code_rejects_invalid (o : Oracle) (g : QRCodeGenerator)
    (w : World) (url : String) (filename : Option String)
    (h : validate_url url = false) :
    generate_qr_code o g w url filename =
      ((false, "Please enter a valid URL.", none), w, g) := by
  simp [generate_qr_code, genBody, h]

theorem generate_qr_code_rejects_invalid_witness :
    generate_qr_code okOracle QRCodeGenerator.init emptyWorld "" none =
      ((false, "Please enter a valid URL.", none), emptyWorld,
       QRCodeGenerator.init) :=
  generate_qr_code_rejects_invalid okOracle QRCodeGenerator.init emptyWorld ""
    none (by decide)

/-- Claim C5: `format_url` leaves a string starting with `http://` or
`https://` unchanged, otherwise prepends `https://`; consequently it is
idempotent. -/
theorem format_url_spec_and_idempotent (s : String) :
    ((pyStartsWith s "http://" || pyStartsWith s "https://") = false →
      format_url s = "https://" ++ s) ∧
    ((pyStartsWith s "http://" || pyStartsWith s "https://") = true →
      format_url s = s) ∧
    format_url (format_url s) = format_url s := by
  have hpre : pyStartsWith ("https://" ++ s) "https://" = true := by
    show ("https://".data).isPrefixOf (("https://" ++ s).data) = true
    rw [string_data_append]
    exact list_isPrefixOf_append _ _
  refine ⟨fun h => by simp [format_url, h], fun h => by simp [format_url, h], ?_⟩
  by_cases h : (pyStartsWith s "http://" || pyStartsWith s "https://") = true
  · simp [format_url, h]
  · have h' : (pyStartsWith s "http://" || pyStartsWith s "https://") = false := by
      simp at h
      simp [h]
    simp [format_url, h', hpre]

theorem format_url_spec_and_idempotent_witness :
    format_url "example.com" = "https://" ++ "example.com" ∧
    format_url "http://example.com" = "http://example.com" :=
  ⟨(format_url_spec_and_idempotent "example.com").1 (by decide),
   (format_url_spec_and_idempotent "http://example.com").2.1 (by decide)⟩

/-- Claim C6, counterexample: the explicitly supplied filename `""` does
not end in `".png"`, so the claim predicts the saved name `"" ++ ".png"`,
i.e. `".png"`; but Python's `if not filename:` treats the empty string as
absent, derives the name from the URL instead, and `generate_qr_code "a.b"`
with filename `""` saves `"ab.png"`. -/
theorem explicit_empty_filename_counterexample :
    deriveFilename "a.b" "" = "ab.png" ∧
    "ab.png" ≠ "" ++ ".png" ∧
    (generate_qr_code okOracle QRCodeGenerator.init emptyWorld "a.b"
        (some "")).1.2.1
      = "QR code generated successfully! Saved as: qr_codes_output/ab.png" ∧
    fsLookup (generate_qr_code okOracle QRCodeGenerator.init emptyWorld "a.b"
        (some "")).2.1.files ".png" = none ∧
    fsLookup (generate_qr_code okOracle QRCodeGenerator.init emptyWorld "a.b"
        (some "")).2.1.files "qr_codes_output/.png" = none := by
  refine ⟨by decide, by decide, by decide, by decide, by decide⟩

/-- Claim C6 (amended): for every non-empty explicitly supplied filename
`f`, the saved name is `f` itself when `f` already ends in `".png"`
case-insensitively, and `f ++ ".png"` (one single append) otherwise; either
way the result ends in `".png"` case-insensitively. An empty supplied
filename is treated as absent and the name is derived from the URL. -/
theorem deriveFilename_explicit_spec (url f : String) (hf : f ≠ "") :
    (pyEndsWith (pyLower f) ".png" = true → deriveFilename url f = f) ∧
    (pyEndsWith (pyLower f) ".png" = false → deriveFilename url f = f ++ ".png") ∧
    pyEndsWith (pyLower (deriveFilename url f)) ".png" = true := by
  refine ⟨fun h => by simp [deriveFilename, hf, h],
          fun h => by simp [deriveFilename, hf, h], ?_⟩
  by_cases h : pyEndsWith (pyLower f) ".png" = true
  · simp [deriveFilename, hf, h]
  · have h' : pyEndsWith (pyLower f) ".png" = false := by
      simp at h
      simp [h]
    simp [deriveFilename, hf, h', ends_png_of_append]

theorem deriveFilename_explicit_spec_witness :
    deriveFilename "a.b" "myqr" = "myqr" ++ ".png" ∧
    deriveFilename "a.b" "logo.PNG" = "logo.PNG" ∧
    pyEndsWith (pyLower (deriveFilename "a.b" "myqr")) ".png" = true :=
  ⟨(deriveFilename_explicit_spec "a.b" "myqr" (by decide)).2.1 (by decide),
   (deriveFilename_explicit_spec "a.b" "logo.PNG" (by decide)).1 (by decide),
   (deriveFilename_explicit_spec "a.b" "myqr" (by decide)).2.2⟩

/-- Claim C7: with no explicit filename the output path is a deterministic
function of the URL alone, so two successful generations of the same URL
succeed with the same reported path, the second silently overwrites the
first, and afterwards exactly one file sits at that path. -/
theorem generate_qr_code_deterministic_overwrite (u : String) (w : World)
    (h : validate_url u = true) :
    (generate_qr_code okOracle QRCodeGenerator.init w u none).1.1 = true ∧
    (generate_qr_code okOracle QRCodeGenerator.init
        (generate_qr_code okOracle QRCodeGenerator.init w u none).2.1 u
        none).1.1 = true ∧
    (generate_qr_code okOracle QRCodeGenerator.init w u none).1.2.1 =
      (generate_qr_code okOracle QRCodeGenerator.init
        (generate_qr_code okOracle QRCodeGenerator.init w u none).2.1 u
        none).1.2.1 ∧
    fsLookup (generate_qr_code okOracle QRCodeGenerator.init
        (generate_qr_code okOracle QRCodeGenerator.init w u none).2.1 u
        none).2.1.files (expectedPath u) = some (expectedImage u) ∧
    ((generate_qr_code okOracle QRCodeGenerator.init
        (generate_qr_code okOracle QRCodeGenerator.init w u none).2.1 u
        none).2.1.files.filter fun e => e.1 == expectedPath u).length = 1 := by
  have h1 := generate_qr_code_ok u w h
  have h2 := generate_qr_code_ok u (afterWorld w u) h
  rw [h1]
  simp only [h2]
  refine ⟨by trivial, by trivial, by trivial, ?_, ?_⟩
  · rw [afterWorld_files, fsLookup_fsWrite_self]
  · rw [afterWorld_files, filter_fsWrite_length]

theorem generate_qr_code_deterministic_overwrite_witness :
    (generate_qr_code okOracle QRCodeGenerator.init emptyWorld "a.b" none).1.1
      = true ∧
    (generate_qr_code okOracle QRCodeGenerator.init
        (generate_qr_code okOracle QRCodeGenerator.init emptyWorld "a.b"
          none).2.1 "a.b" none).1.1 = true ∧
    (generate_qr_code okOracle QRCodeGenerator.init emptyWorld "a.b"
        none).1.2.1 =
      (generate_qr_code okOracle QRCodeGenerator.init
        (generate_qr_code okOracle QRCodeGenerator.init emptyWorld "a.b"
          none).2.1 "a.b" none).1.2.1 ∧
    fsLookup (generate_qr_code okOracle QRCodeGenerator.init
        (generate_qr_code okOracle QRCodeGenerator.init emptyWorld "a.b"
          none).2.1 "a.b" none).2.1.files (expectedPath "a.b")
      = some (expectedImage "a.b") ∧
    ((generate_qr_code okOracle QRCodeGenerator.init
        (generate_qr_code okOracle QRCodeGenerator.init emptyWorld "a.b"
          none).2.1 "a.b" none).2.1.files.filter
        fun e => e.1 == expectedPath "a.b").length = 1 :=
  generate_qr_code_deterministic_overwrite "a.b" emptyWorld (by decide)

/-- Claim C8: the generator built by `__init__` holds version 1 (the
smallest symbol version), box size 10, border 4 and medium error
correction, and neither `generate_qr_code` nor `display_qr_info` ever
changes the instance fields (`validate_url` and `format_url` read no
fields at all and are modelled as pure functions). -/
theorem generator_config_constant :
    QRCodeGenerator.init.version = 1 ∧
    QRCodeGenerator.init.box_size = 10 ∧
    QRCodeGenerator.init.border = 4 ∧
    QRCodeGenerator.init.error_correction = ErrorCorrectLevel.M ∧
    (∀ o g w url f, (generate_qr_code o g w url f).2.2 = g) ∧
    (∀ g url s m, (display_qr_info g url s m).2 = g) := by
  refine ⟨rfl, rfl, rfl, rfl, ?_, fun g url s m => rfl⟩
  intro o g w url f
  have hb := genBody_self o g w url f
  unfold generate_qr_code
  rcases hgb : genBody o g w url f with ⟨r, w', g'⟩
  rw [hgb] at hb
  simp at hb
  cases r <;> simp [hb]

/-- Claim C9: `validate_url` on a value that is not a string (None, a
boolean or a number) returns false — the `isinstance` guard runs before
any string operation, so the validator is total over these values. -/
theorem validate_url_nonstring_false (v : PyVal) (h : pyIsStr v = false) :
    validate_url_dyn v = false := by
  unfold validate_url_dyn
  simp [h]

theorem validate_url_nonstring_false_witness :
    validate_url_dyn PyVal.pyNone = false ∧
    validate_url_dyn (PyVal.pyInt 42) = false :=
  ⟨validate_url_nonstring_false PyVal.pyNone (by decide),
   validate_url_nonstring_false (PyVal.pyInt 42) (by decide)⟩

/-- Claim C10: the validator accepts `"/./"` (its interior `'.'` is neither
leading nor trailing), sanitization strips every character of it, the
derived filename is exactly `".png"` — which the case-insensitive suffix
check deems complete — and generation succeeds, writing the hidden file
`qr_codes_output/.png`. -/
theorem generate_qr_code_hidden_png_file :
    validate_url "/./" = true ∧
    pySafeUrl "/./" = "" ∧
    deriveFilename "/./" "" = ".png" ∧
    (generate_qr_code okOracle QRCodeGenerator.init emptyWorld "/./" none).1 =
      (true, "QR code generated successfully! Saved as: qr_codes_output/.png",
       some (expectedImage "/./")) ∧
    fsLookup (generate_qr_code okOracle QRCodeGenerator.init emptyWorld "/./"
        none).2.1.files "qr_codes_output/.png" = some (expectedImage "/./") := by
  refine ⟨by decide, by decide, by decide, by decide, by decide⟩
